import Mathlib

/-!
Shallow embedding of the dnd-tabletop server (`src/server.py`).

The server's command-processing engine is modelled as a pure state machine:
`handleCommand` embeds `TabletopServer.handle_command`, `broadcast` embeds
`TabletopServer.broadcast`, and `unregisterIfCurrent` embeds the `finally`
block of `TabletopServer.handler`.  Python dicts are modelled as ordered
association lists (`Dict`): insertion replaces the value in place when the
key is present and appends otherwise, matching Python dict semantics.
Python's `random.randint(1, sides)` is modelled by drawing from an explicit
generator value `g : Nat` as `1 + (g % sides)`, which realises the library's
contract of returning an integer in `[1, sides]` inclusive.
-/

namespace Tabletop

/-- A decoded JSON payload value, as far as `handle_command` inspects one:
strings, integers, booleans, and an opaque constructor for every other JSON
value (objects, arrays, null, floats), none of which passes any
`isinstance(_, str)` / `isinstance(_, int)` check used by the server except
that Python booleans are `int` instances. -/
inductive JVal where
  | jstr (s : String)
  | jint (n : Int)
  | jbool (b : Bool)
  | jother
deriving DecidableEq, Repr

/-- Ordered association list standing in for a Python `dict` keyed by `str`. -/
abbrev Dict (α : Type) : Type := List (String × α)

/-- `d.get(k)` / `d[k]` lookup: first binding wins (keys are unique in any
dict built by the server). -/
def dget {α : Type} : Dict α → String → Option α
  | [], _ => none
  | (k', v) :: t, k => if k' = k then some v else dget t k

/-- `d[k] = v`: replace in place when present, append otherwise (Python dict
update preserves the key's insertion position). -/
def dinsert {α : Type} : Dict α → String → α → Dict α
  | [], k, v => [(k, v)]
  | (k', v') :: t, k, v => if k' = k then (k, v) :: t else (k', v') :: dinsert t k v

/-- `d.pop(k, None)`: remove the binding for `k` when present. -/
def dpop {α : Type} : Dict α → String → Dict α
  | [], _ => []
  | (k', v') :: t, k => if k' = k then t else (k', v') :: dpop t k

/-- Python whitespace characters stripped by `str.strip()` (ASCII subset;
the server only ever strips names and chat text). -/
def isPySpace (c : Char) : Bool :=
  c = ' ' || c = '\t' || c = '\n' || c = '\r' || c = '\x0b' || c = '\x0c'

/-- `s.strip()`. -/
def pyStrip (s : String) : String :=
  ⟨((s.data.dropWhile isPySpace).reverse.dropWhile isPySpace).reverse⟩

/-- `isinstance(v, int)` plus the value: Python `bool` is an `int` subclass,
`True == 1` and `False == 0`. -/
def JVal.asInt : JVal → Option Int
  | .jint n => some n
  | .jbool b => some (if b then 1 else 0)
  | _ => none

/-- `payload.get(k)` followed by the `isinstance(_, int)` check. -/
def getInt (p : Dict JVal) (k : String) : Option Int :=
  (dget p k).bind JVal.asInt

/-- `Player` dataclass: `client_id`, `name`, `hp` (default 20). -/
structure Player where
  client_id : String
  name : String
  hp : Int
deriving DecidableEq, Repr

/-- `GameState` dataclass: players by client id, tokens by token id
(`token_id -> {"x": int, "y": int}`). -/
structure GameState where
  players : Dict Player
  tokens : Dict (Int × Int)
deriving DecidableEq, Repr

/-- The mutable server fields touched by `handle_command`: the `seq`
counter, the shared `GameState`, and the dedup map
`"client_id:event_id" -> seq`. -/
structure Core where
  seq : Nat
  state : GameState
  dedup : Dict Nat
deriving DecidableEq, Repr

/-- A command envelope that already passed `validate_command` in `handler`:
all four fields present with the right shapes. -/
structure Cmd where
  client_id : String
  event_id : String
  command : String
  payload : Dict JVal
deriving DecidableEq, Repr

/-- A broadcast event `{type:"event", seq, event_id, event_type, payload}`. -/
structure Event where
  seq : Nat
  event_id : String
  event_type : String
  payload : Dict JVal
deriving DecidableEq, Repr

/-- Observable outcome of one `handle_command` call: the silent dedup-hit
return, a unicast error via `send_error_to(client_id, msg)`, or an event
handed to `broadcast`. -/
inductive Output where
  | silent
  | errorTo (client_id : String) (msg : String)
  | event (ev : Event)
deriving DecidableEq, Repr

/-- Result of one command branch of `handle_command`: a per-command
validation error, or the mutated `GameState` together with the event type
and payload of the event built in that branch. -/
inductive StepRes where
  | err (msg : String)
  | ok (st : GameState) (eventType : String) (payload : Dict JVal)
deriving DecidableEq, Repr

/-- The `f"{client_id}:{event_id}"` dedup key. -/
def dkey (cmd : Cmd) : String := cmd.client_id ++ ":" ++ cmd.event_id

/-- The command dispatch of `handle_command` (lines 86-176 of
`src/server.py`): one branch per command string, each validating its
payload fields and either erroring or mutating the game state and building
the event's type and payload.  `g` feeds the `random.randint` draw of
`ROLL_DICE`. -/
def runCmd (g : Nat) (cmd : Cmd) (st : GameState) : StepRes :=
  match cmd.command with
  | "JOIN" =>
    match dget cmd.payload "name" with
    | some (.jstr name) =>
      if pyStrip name = "" then
        .err "JOIN requires payload.name as non-empty string."
      else
        match dget st.players cmd.client_id with
        | none =>
          let st' := { st with
            players := dinsert st.players cmd.client_id ⟨cmd.client_id, pyStrip name, 20⟩ }
          .ok st' "JOIN"
            [("client_id", .jstr cmd.client_id), ("name", .jstr (pyStrip name))]
        | some p =>
          let st' := { st with
            players := dinsert st.players cmd.client_id { p with name := pyStrip name } }
          .ok st' "JOIN"
            [("client_id", .jstr cmd.client_id), ("name", .jstr (pyStrip name))]
    | _ => .err "JOIN requires payload.name as non-empty string."
  | "CHAT" =>
    match dget cmd.payload "text" with
    | some (.jstr text) =>
      if pyStrip text = "" then
        .err "CHAT requires payload.text as non-empty string."
      else
        .ok st "CHAT" [("client_id", .jstr cmd.client_id), ("text", .jstr text)]
    | _ => .err "CHAT requires payload.text as non-empty string."
  | "ROLL_DICE" =>
    match getInt cmd.payload "sides" with
    | some sides =>
      if sides < 2 ∨ 10000 < sides then
        .err "ROLL_DICE requires payload.sides as int >=2."
      else
        let result : Int := 1 + Int.ofNat (g % sides.toNat)
        .ok st "ROLL_DICE"
          [("client_id", .jstr cmd.client_id), ("sides", .jint sides),
           ("result", .jint result)]
    | none => .err "ROLL_DICE requires payload.sides as int >=2."
  | "MOVE_TOKEN" =>
    match dget cmd.payload "token_id" with
    | some (.jstr token_id) =>
      if token_id = "" then
        .err "MOVE_TOKEN requires payload.token_id as non-empty string."
      else
        match getInt cmd.payload "x", getInt cmd.payload "y" with
        | some x, some y =>
          let st' := { st with tokens := dinsert st.tokens token_id (x, y) }
          .ok st' "MOVE_TOKEN"
            [("token_id", .jstr token_id), ("x", .jint x), ("y", .jint y)]
        | _, _ => .err "MOVE_TOKEN requires payload.x and payload.y as integers."
    | _ => .err "MOVE_TOKEN requires payload.token_id as non-empty string."
  | "SET_HP" =>
    match dget cmd.payload "target_id" with
    | some (.jstr target_id) =>
      if target_id = "" then
        .err "SET_HP requires payload.target_id as non-empty string."
      else
        match getInt cmd.payload "delta" with
        | some delta =>
          match dget st.players target_id with
          | none =>
            let newHp := max 0 (20 + delta)
            let st' := { st with
              players := dinsert st.players target_id ⟨target_id, target_id, newHp⟩ }
            .ok st' "SET_HP"
              [("target_id", .jstr target_id), ("delta", .jint delta),
               ("new_hp", .jint newHp)]
          | some p =>
            let newHp := max 0 (p.hp + delta)
            let st' := { st with
              players := dinsert st.players target_id { p with hp := newHp } }
            .ok st' "SET_HP"
              [("target_id", .jstr target_id), ("delta", .jint delta),
               ("new_hp", .jint newHp)]
        | none => .err "SET_HP requires payload.delta as integer."
    | _ => .err "SET_HP requires payload.target_id as non-empty string."
  | _ => .err ("Unknown command: " ++ cmd.command)

/-- `handle_command` (lines 74-179): dedup early-return, then
`seq = self.next_seq()` (the counter is incremented BEFORE per-command
validation), then the command dispatch; on success the dedup entry is
recorded and the event is handed to `broadcast`, on a validation error only
the incremented `seq` survives. -/
def handleCommand (g : Nat) (cmd : Cmd) (s : Core) : Core × Output :=
  if (dget s.dedup (dkey cmd)).isSome then
    (s, .silent)
  else
    let seq := s.seq + 1
    match runCmd g cmd s.state with
    | .err m => ({ s with seq := seq }, .errorTo cmd.client_id m)
    | .ok st' et pl =>
      ({ seq := seq, state := st', dedup := dinsert s.dedup (dkey cmd) seq },
       .event ⟨seq, cmd.event_id, et, pl⟩)

/-- Process a list of commands in order, each paired with the generator
value for its (potential) dice roll; returns the final state and the
per-command outcomes. -/
def processAll : List (Nat × Cmd) → Core → Core × List Output
  | [], s => (s, [])
  | (g, c) :: rest, s =>
    let p := handleCommand g c s
    let q := processAll rest p.1
    (q.1, p.2 :: q.2)

/-- The seq values carried by the broadcast events among the outcomes, in
order. -/
def broadcastSeqs (outs : List Output) : List Nat :=
  outs.filterMap fun o => match o with
    | .event ev => some ev.seq
    | _ => none

/-- The freshly started server: `seq = 0`, empty game state, empty dedup
map. -/
def initCore : Core := ⟨0, ⟨[], []⟩, []⟩

/-- A registered websocket connection: `oid` models Python object identity
(the `is` comparison in `handler`), `sendOk` models whether `ws.send`
succeeds or raises. -/
structure Conn where
  oid : Nat
  sendOk : Bool
deriving DecidableEq, Repr

/-- The send loop of `broadcast` (lines 39-43): iterate the registry in
order, attempt each send; returns (client ids delivered to, client ids
appended to `dead`). -/
def broadcastScan : List (String × Conn) → List String × List String
  | [] => ([], [])
  | (cid, ws) :: rest =>
    let p := broadcastScan rest
    if ws.sendOk then (cid :: p.1, p.2) else (p.1, cid :: p.2)

/-- `broadcast` (lines 36-45): attempt delivery to every registered
connection, then pop every dead one; returns the pruned registry and the
client ids that received the message. -/
def broadcast (clients : Dict Conn) : Dict Conn × List String :=
  let p := broadcastScan clients
  (p.2.foldl dpop clients, p.1)

/-- `send_error_to` (lines 65-72): unicast to the registry entry for
`client_id` alone, swallowing a missing entry or a failed send; returns the
client ids that received the error message. -/
def sendErrorTo (clients : Dict Conn) (client_id : String) : List String :=
  match dget clients client_id with
  | none => []
  | some ws => if ws.sendOk then [client_id] else []

/-- `self.clients[client_id] = ws` (line 198): last registration wins. -/
def register (clients : Dict Conn) (cid : String) (ws : Conn) : Dict Conn :=
  dinsert clients cid ws

/-- The `finally` block of `handler` (lines 204-206): pop the client id
only if the registry still maps it to this exact connection object. -/
def unregisterIfCurrent (clients : Dict Conn) (cid : String) (ws : Conn) : Dict Conn :=
  match dget clients cid with
  | some w => if w.oid = ws.oid then dpop clients cid else clients
  | none => clients

/-- `true` exactly when the outcome is an event handed to `broadcast`. -/
def Output.isEvent : Output → Bool
  | .event _ => true
  | _ => false

/-! ### Dictionary lemmas -/

theorem dget_dinsert_self {α : Type} (d : Dict α) (k : String) (v : α) :
    dget (dinsert d k v) k = some v := by
  induction d with
  | nil => simp [dinsert, dget]
  | cons hd t ih =>
    obtain ⟨k', v'⟩ := hd
    by_cases h : k' = k <;> simp [dinsert, dget, h, ih]

theorem dget_dinsert_ne {α : Type} (d : Dict α) (k k' : String) (v : α)
    (h : k' ≠ k) : dget (dinsert d k v) k' = dget d k' := by
  induction d with
  | nil =>
    simp only [dinsert, dget]
    rw [if_neg (Ne.symm h)]
  | cons hd t ih =>
    obtain ⟨k'', v''⟩ := hd
    by_cases h2 : k'' = k
    · subst h2
      simp only [dinsert, if_pos rfl, dget]
      rw [if_neg (Ne.symm h), if_neg (Ne.symm h)]
    · simp only [dinsert, if_neg h2, dget]
      by_cases h3 : k'' = k'
      · rw [if_pos h3, if_pos h3]
      · rw [if_neg h3, if_neg h3]
        exact ih

theorem dget_dinsert_isSome {α : Type} (d : Dict α) (k k' : String) (v : α)
    (h : (dget d k').isSome) : (dget (dinsert d k v) k').isSome := by
  by_cases e : k' = k
  · subst e; simp [dget_dinsert_self]
  · rwa [dget_dinsert_ne d k k' v e]

/-! ### Outcome classification for `handleCommand` -/

theorem handleCommand_silent (g : Nat) (cmd : Cmd) (s : Core)
    (h : (dget s.dedup (dkey cmd)).isSome) : handleCommand g cmd s = (s, .silent) := by
  simp [handleCommand, h]

theorem handleCommand_err (g : Nat) (cmd : Cmd) (s : Core) (m : String)
    (hd : (dget s.dedup (dkey cmd)).isSome = false)
    (h : runCmd g cmd s.state = .err m) :
    handleCommand g cmd s = ({ s with seq := s.seq + 1 }, .errorTo cmd.client_id m) := by
  simp [handleCommand, hd, h]

theorem handleCommand_ok (g : Nat) (cmd : Cmd) (s : Core) (st' : GameState)
    (et : String) (pl : Dict JVal)
    (hd : (dget s.dedup (dkey cmd)).isSome = false)
    (h : runCmd g cmd s.state = .ok st' et pl) :
    handleCommand g cmd s =
      ({ seq := s.seq + 1, state := st', dedup := dinsert s.dedup (dkey cmd) (s.seq + 1) },
       .event ⟨s.seq + 1, cmd.event_id, et, pl⟩) := by
  simp [handleCommand, hd, h]

theorem handleCommand_inv (g : Nat) (cmd : Cmd) (s : Core) :
    (handleCommand g cmd s = (s, .silent) ∧ (dget s.dedup (dkey cmd)).isSome = true) ∨
    (∃ m, handleCommand g cmd s = ({ s with seq := s.seq + 1 }, .errorTo cmd.client_id m)) ∨
    (∃ st' et pl, runCmd g cmd s.state = .ok st' et pl ∧
      handleCommand g cmd s =
        ({ seq := s.seq + 1, state := st', dedup := dinsert s.dedup (dkey cmd) (s.seq + 1) },
         .event ⟨s.seq + 1, cmd.event_id, et, pl⟩)) := by
  by_cases hd : (dget s.dedup (dkey cmd)).isSome
  · exact Or.inl ⟨handleCommand_silent g cmd s hd, hd⟩
  · rcases h : runCmd g cmd s.state with m | ⟨st', et, pl⟩
    · exact Or.inr (Or.inl ⟨m, handleCommand_err g cmd s m (by simp_all) h⟩)
    · exact Or.inr (Or.inr ⟨st', et, pl, rfl, handleCommand_ok g cmd s st' et pl (by simp_all) h⟩)

theorem handleCommand_error_facts (g : Nat) (cmd : Cmd) (s s' : Core) (a m : String)
    (h : handleCommand g cmd s = (s', .errorTo a m)) :
    a = cmd.client_id ∧ s'.seq = s.seq + 1 ∧ s'.state = s.state ∧ s'.dedup = s.dedup := by
  rcases handleCommand_inv g cmd s with ⟨h1, _⟩ | ⟨m', h1⟩ | ⟨st', et, pl, _, h1⟩ <;>
    rw [h] at h1
  · simp at h1
  · rw [Prod.mk.injEq] at h1
    obtain ⟨hs, ho⟩ := h1
    cases ho
    subst hs
    simp
  · simp at h1

theorem handleCommand_event_facts (g : Nat) (cmd : Cmd) (s s' : Core) (ev : Event)
    (h : handleCommand g cmd s = (s', .event ev)) :
    s'.seq = s.seq + 1 ∧ ev.seq = s.seq + 1 ∧
    s'.dedup = dinsert s.dedup (dkey cmd) (s.seq + 1) := by
  rcases handleCommand_inv g cmd s with ⟨h1, _⟩ | ⟨m', h1⟩ | ⟨st', et, pl, _, h1⟩ <;>
    rw [h] at h1
  · simp at h1
  · simp at h1
  · rw [Prod.mk.injEq] at h1
    obtain ⟨hs, ho⟩ := h1
    cases ho
    subst hs
    simp

theorem handleCommand_seq_le (g : Nat) (cmd : Cmd) (s : Core) :
    s.seq ≤ (handleCommand g cmd s).1.seq := by
  rcases handleCommand_inv g cmd s with ⟨h1, _⟩ | ⟨m', h1⟩ | ⟨st', et, pl, _, h1⟩ <;>
    rw [h1] <;> simp

theorem handleCommand_not_silent (g : Nat) (cmd : Cmd) (s : Core)
    (h : (dget s.dedup (dkey cmd)).isSome = false) :
    (handleCommand g cmd s).2 ≠ .silent := by
  rcases handleCommand_inv g cmd s with ⟨h1, h2⟩ | ⟨m', h1⟩ | ⟨st', et, pl, _, h1⟩ <;>
    rw [h1]
  · rw [h2] at h; cases h
  · simp
  · simp

theorem handleCommand_dedup_mono (g : Nat) (cmd : Cmd) (s : Core) (k : String)
    (h : (dget s.dedup k).isSome) : (dget (handleCommand g cmd s).1.dedup k).isSome := by
  rcases handleCommand_inv g cmd s with ⟨h1, _⟩ | ⟨m', h1⟩ | ⟨st', et, pl, _, h1⟩ <;>
    rw [h1]
  · exact h
  · exact h
  · exact dget_dinsert_isSome _ _ _ _ h

/-! ### Lemmas about processing command sequences -/

theorem processAll_cons (g : Nat) (c : Cmd) (rest : List (Nat × Cmd)) (s : Core) :
    processAll ((g, c) :: rest) s =
      ((processAll rest (handleCommand g c s).1).1,
       (handleCommand g c s).2 :: (processAll rest (handleCommand g c s).1).2) := rfl

theorem broadcastSeqs_cons_silent (l : List Output) :
    broadcastSeqs (.silent :: l) = broadcastSeqs l := rfl

theorem broadcastSeqs_cons_error (a m : String) (l : List Output) :
    broadcastSeqs (.errorTo a m :: l) = broadcastSeqs l := rfl

theorem broadcastSeqs_cons_event (ev : Event) (l : List Output) :
    broadcastSeqs (.event ev :: l) = ev.seq :: broadcastSeqs l := rfl

theorem processAll_dedup_mono (steps : List (Nat × Cmd)) (s : Core) (k : String)
    (h : (dget s.dedup k).isSome) :
    (dget (processAll steps s).1.dedup k).isSome := by
  induction steps generalizing s with
  | nil => exact h
  | cons p rest ih =>
    obtain ⟨g, c⟩ := p
    rw [processAll_cons]
    exact ih _ (handleCommand_dedup_mono g c s k h)

theorem processAll_seq_facts (steps : List (Nat × Cmd)) (s : Core) :
    s.seq ≤ (processAll steps s).1.seq ∧
    (∀ n ∈ broadcastSeqs (processAll steps s).2,
      s.seq < n ∧ n ≤ (processAll steps s).1.seq) ∧
    List.Chain' (· < ·) (broadcastSeqs (processAll steps s).2) := by
  induction steps generalizing s with
  | nil => simp [processAll, broadcastSeqs]
  | cons p rest ih =>
    obtain ⟨g, c⟩ := p
    rw [processAll_cons]
    dsimp only
    obtain ⟨ih1, ih2, ih3⟩ := ih (handleCommand g c s).1
    have hle := handleCommand_seq_le g c s
    refine ⟨le_trans hle ih1, ?_, ?_⟩
    · intro n hn
      cases ho : (handleCommand g c s).2 with
      | silent =>
        rw [ho, broadcastSeqs_cons_silent] at hn
        exact ⟨lt_of_le_of_lt hle (ih2 n hn).1, (ih2 n hn).2⟩
      | errorTo a m =>
        rw [ho, broadcastSeqs_cons_error] at hn
        exact ⟨lt_of_le_of_lt hle (ih2 n hn).1, (ih2 n hn).2⟩
      | event ev =>
        rw [ho, broadcastSeqs_cons_event] at hn
        have h : handleCommand g c s = ((handleCommand g c s).1, .event ev) := by
          rw [← ho]
        obtain ⟨f1, f2, _⟩ := handleCommand_event_facts g c s _ ev h
        rcases List.mem_cons.mp hn with he | hm
        · subst he
          exact ⟨by omega, by omega⟩
        · obtain ⟨b1, b2⟩ := ih2 n hm
          exact ⟨by omega, b2⟩
    · cases ho : (handleCommand g c s).2 with
      | silent =>
        rw [broadcastSeqs_cons_silent]
        exact ih3
      | errorTo a m =>
        rw [broadcastSeqs_cons_error]
        exact ih3
      | event ev =>
        rw [broadcastSeqs_cons_event]
        rw [List.chain'_cons']
        refine ⟨fun y hy => ?_, ih3⟩
        have hmem : y ∈ broadcastSeqs (processAll rest (handleCommand g c s).1).2 := by
          rw [List.eq_cons_of_mem_head? hy]
          exact List.mem_cons_self _ _
        have hy1 := (ih2 y hmem).1
        have h : handleCommand g c s = ((handleCommand g c s).1, .event ev) := by
          rw [← ho]
        obtain ⟨f1, f2, _⟩ := handleCommand_event_facts g c s _ ev h
        omega

/-! ### Non-negativity of hit points -/

/-- Every stored player has non-negative hp. -/
def playersNonneg (d : Dict Player) : Prop :=
  ∀ k p, dget d k = some p → 0 ≤ p.hp

theorem playersNonneg_dinsert (d : Dict Player) (k : String) (v : Player)
    (hd : playersNonneg d) (hv : 0 ≤ v.hp) : playersNonneg (dinsert d k v) := by
  intro k' p hp
  by_cases e : k' = k
  · subst e
    rw [dget_dinsert_self] at hp
    cases hp
    exact hv
  · rw [dget_dinsert_ne d k k' v e] at hp
    exact hd k' p hp

theorem runCmd_ok_nonneg (g : Nat) (cmd : Cmd) (st st' : GameState)
    (et : String) (pl : Dict JVal) (h : runCmd g cmd st = .ok st' et pl)
    (hn : playersNonneg st.players) : playersNonneg st'.players := by
  unfold runCmd at h
  split at h
  · -- JOIN
    split at h
    · split at h
      · cases h
      · split at h
        · cases h
          exact playersNonneg_dinsert _ _ _ hn (by norm_num)
        · rename_i p hp
          cases h
          exact playersNonneg_dinsert _ _ _ hn (hn _ p hp)
    · cases h
  · -- CHAT
    split at h
    · split at h
      · cases h
      · cases h; exact hn
    · cases h
  · -- ROLL_DICE
    split at h
    · split at h
      · cases h
      · cases h; exact hn
    · cases h
  · -- MOVE_TOKEN
    split at h
    · split at h
      · cases h
      · split at h
        · cases h; exact hn
        · cases h
    · cases h
  · -- SET_HP
    split at h
    · split at h
      · cases h
      · split at h
        · split at h
          · cases h
            exact playersNonneg_dinsert _ _ _ hn (le_max_left _ _)
          · cases h
            exact playersNonneg_dinsert _ _ _ hn (le_max_left _ _)
        · cases h
    · cases h
  · cases h

theorem handleCommand_nonneg (g : Nat) (cmd : Cmd) (s : Core)
    (hn : playersNonneg s.state.players) :
    playersNonneg (handleCommand g cmd s).1.state.players := by
  rcases handleCommand_inv g cmd s with ⟨h1, _⟩ | ⟨m', h1⟩ | ⟨st', et, pl, hr, h1⟩ <;>
    rw [h1]
  · exact hn
  · exact hn
  · exact runCmd_ok_nonneg g cmd s.state st' et pl hr hn

theorem processAll_nonneg (steps : List (Nat × Cmd)) (s : Core)
    (hn : playersNonneg s.state.players) :
    playersNonneg (processAll steps s).1.state.players := by
  induction steps generalizing s with
  | nil => exact hn
  | cons p rest ih =>
    obtain ⟨g, c⟩ := p
    rw [processAll_cons]
    exact ih _ (handleCommand_nonneg g c s hn)


/-! ### Branch equations for `runCmd` -/

theorem runCmd_join_ok (g : Nat) (cmd : Cmd) (st : GameState) (n : String)
    (hc : cmd.command = "JOIN")
    (hn : dget cmd.payload "name" = some (.jstr n)) (hne : pyStrip n ≠ "") :
    runCmd g cmd st = .ok
      { st with players := dinsert st.players cmd.client_id { (dget st.players cmd.client_id).getD ⟨cmd.client_id, pyStrip n, 20⟩ with name := pyStrip n } }
      "JOIN" [("client_id", .jstr cmd.client_id), ("name", .jstr (pyStrip n))] := by
  rcases hp : dget st.players cmd.client_id with _ | p <;>
    simp [runCmd, hc, hn, hne, hp]

theorem runCmd_join_err (g : Nat) (cmd : Cmd) (st : GameState) (n : String)
    (hc : cmd.command = "JOIN")
    (hn : dget cmd.payload "name" = some (.jstr n)) (he : pyStrip n = "") :
    runCmd g cmd st = .err "JOIN requires payload.name as non-empty string." := by
  simp [runCmd, hc, hn, he]

theorem runCmd_chat_ok (g : Nat) (cmd : Cmd) (st : GameState) (t : String)
    (hc : cmd.command = "CHAT")
    (ht : dget cmd.payload "text" = some (.jstr t)) (hne : pyStrip t ≠ "") :
    runCmd g cmd st = .ok st "CHAT"
      [("client_id", .jstr cmd.client_id), ("text", .jstr t)] := by
  simp [runCmd, hc, ht, hne]

theorem runCmd_roll_ok (g : Nat) (cmd : Cmd) (st : GameState) (n : Int)
    (hc : cmd.command = "ROLL_DICE")
    (hs : getInt cmd.payload "sides" = some n) (h2 : 2 ≤ n) (h10 : n ≤ 10000) :
    runCmd g cmd st = .ok st "ROLL_DICE"
      [("client_id", .jstr cmd.client_id), ("sides", .jint n),
       ("result", .jint (1 + Int.ofNat (g % n.toNat)))] := by
  have hcond : ¬(n < 2 ∨ 10000 < n) := by omega
  simp [runCmd, hc, hs, hcond]

theorem runCmd_roll_err_range (g : Nat) (cmd : Cmd) (st : GameState) (n : Int)
    (hc : cmd.command = "ROLL_DICE")
    (hs : getInt cmd.payload "sides" = some n) (hcond : n < 2 ∨ 10000 < n) :
    runCmd g cmd st = .err "ROLL_DICE requires payload.sides as int >=2." := by
  simp [runCmd, hc, hs, hcond]

theorem runCmd_roll_err_none (g : Nat) (cmd : Cmd) (st : GameState)
    (hc : cmd.command = "ROLL_DICE")
    (hs : getInt cmd.payload "sides" = none) :
    runCmd g cmd st = .err "ROLL_DICE requires payload.sides as int >=2." := by
  simp [runCmd, hc, hs]

theorem runCmd_move_ok (g : Nat) (cmd : Cmd) (st : GameState) (t : String) (x y : Int)
    (hc : cmd.command = "MOVE_TOKEN")
    (ht : dget cmd.payload "token_id" = some (.jstr t)) (hne : t ≠ "")
    (hx : getInt cmd.payload "x" = some x) (hy : getInt cmd.payload "y" = some y) :
    runCmd g cmd st = .ok { st with tokens := dinsert st.tokens t (x, y) }
      "MOVE_TOKEN" [("token_id", .jstr t), ("x", .jint x), ("y", .jint y)] := by
  simp [runCmd, hc, ht, hne, hx, hy]

theorem runCmd_setHP_ok (g : Nat) (cmd : Cmd) (st : GameState) (t : String) (d : Int)
    (hc : cmd.command = "SET_HP")
    (ht : dget cmd.payload "target_id" = some (.jstr t)) (hne : t ≠ "")
    (hd : getInt cmd.payload "delta" = some d) :
    runCmd g cmd st = .ok
      { st with players := dinsert st.players t { (dget st.players t).getD ⟨t, t, 20⟩ with hp := max 0 (((dget st.players t).getD ⟨t, t, 20⟩).hp + d) } }
      "SET_HP" [("target_id", .jstr t), ("delta", .jint d),
        ("new_hp", .jint (max 0 (((dget st.players t).getD ⟨t, t, 20⟩).hp + d)))] := by
  rcases hp : dget st.players t with _ | p <;>
    simp [runCmd, hc, ht, hne, hd, hp]

theorem runCmd_unknown (g : Nat) (cmd : Cmd) (st : GameState)
    (h1 : cmd.command ≠ "JOIN") (h2 : cmd.command ≠ "CHAT")
    (h3 : cmd.command ≠ "ROLL_DICE") (h4 : cmd.command ≠ "MOVE_TOKEN")
    (h5 : cmd.command ≠ "SET_HP") :
    runCmd g cmd st = .err ("Unknown command: " ++ cmd.command) := by
  unfold runCmd
  split <;> simp_all


/-! ### Per-command success equations for `handleCommand` -/

theorem handleCommand_join_eq (g : Nat) (c : Cmd) (s : Core) (n : String)
    (hc : c.command = "JOIN") (hmiss : (dget s.dedup (dkey c)).isSome = false)
    (hn : dget c.payload "name" = some (.jstr n)) (hne : pyStrip n ≠ "") :
    handleCommand g c s =
      ({ seq := s.seq + 1,
         state := { s.state with players := dinsert s.state.players c.client_id { (dget s.state.players c.client_id).getD ⟨c.client_id, pyStrip n, 20⟩ with name := pyStrip n } },
         dedup := dinsert s.dedup (dkey c) (s.seq + 1) },
       .event ⟨s.seq + 1, c.event_id, "JOIN",
         [("client_id", .jstr c.client_id), ("name", .jstr (pyStrip n))]⟩) :=
  handleCommand_ok g c s _ _ _ hmiss (runCmd_join_ok g c s.state n hc hn hne)

theorem handleCommand_move_eq (g : Nat) (c : Cmd) (s : Core) (t : String) (x y : Int)
    (hc : c.command = "MOVE_TOKEN") (hmiss : (dget s.dedup (dkey c)).isSome = false)
    (ht : dget c.payload "token_id" = some (.jstr t)) (hne : t ≠ "")
    (hx : getInt c.payload "x" = some x) (hy : getInt c.payload "y" = some y) :
    handleCommand g c s =
      ({ seq := s.seq + 1,
         state := { s.state with tokens := dinsert s.state.tokens t (x, y) },
         dedup := dinsert s.dedup (dkey c) (s.seq + 1) },
       .event ⟨s.seq + 1, c.event_id, "MOVE_TOKEN",
         [("token_id", .jstr t), ("x", .jint x), ("y", .jint y)]⟩) :=
  handleCommand_ok g c s _ _ _ hmiss (runCmd_move_ok g c s.state t x y hc ht hne hx hy)

theorem handleCommand_setHP_eq (g : Nat) (c : Cmd) (s : Core) (t : String) (d : Int)
    (hc : c.command = "SET_HP") (hmiss : (dget s.dedup (dkey c)).isSome = false)
    (ht : dget c.payload "target_id" = some (.jstr t)) (hne : t ≠ "")
    (hd : getInt c.payload "delta" = some d) :
    handleCommand g c s =
      ({ seq := s.seq + 1,
         state := { s.state with players := dinsert s.state.players t { (dget s.state.players t).getD ⟨t, t, 20⟩ with hp := max 0 (((dget s.state.players t).getD ⟨t, t, 20⟩).hp + d) } },
         dedup := dinsert s.dedup (dkey c) (s.seq + 1) },
       .event ⟨s.seq + 1, c.event_id, "SET_HP",
         [("target_id", .jstr t), ("delta", .jint d),
          ("new_hp", .jint (max 0 (((dget s.state.players t).getD ⟨t, t, 20⟩).hp + d)))]⟩) :=
  handleCommand_ok g c s _ _ _ hmiss (runCmd_setHP_ok g c s.state t d hc ht hne hd)

/-! ### Concrete commands and registries used by witnesses and
counterexamples -/

/-- JOIN whose name is whitespace only (fails per-command validation). -/
def cJoinBad : Cmd := ⟨"alice", "e1", "JOIN", [("name", JVal.jstr "  ")]⟩

/-- Valid JOIN; same `(client_id, event_id)` pair as `cJoinBad`. -/
def cJoinOk : Cmd := ⟨"alice", "e1", "JOIN", [("name", JVal.jstr " Alice ")]⟩

/-- Valid CHAT. -/
def cChat : Cmd := ⟨"alice", "e2", "CHAT", [("text", JVal.jstr "hi")]⟩

/-- ROLL_DICE with 20 sides (valid). -/
def cRoll20 : Cmd := ⟨"alice", "e3", "ROLL_DICE", [("sides", JVal.jint 20)]⟩

/-- ROLL_DICE with 1 side (rejected). -/
def cRoll1 : Cmd := ⟨"alice", "e4", "ROLL_DICE", [("sides", JVal.jint 1)]⟩

/-- ROLL_DICE with 10000 sides (accepted boundary). -/
def cRoll10000 : Cmd := ⟨"alice", "e5", "ROLL_DICE", [("sides", JVal.jint 10000)]⟩

/-- ROLL_DICE with 10001 sides (rejected boundary). -/
def cRoll10001 : Cmd := ⟨"alice", "e6", "ROLL_DICE", [("sides", JVal.jint 10001)]⟩

/-- First MOVE_TOKEN on token "tok". -/
def cMove1 : Cmd :=
  ⟨"alice", "e7", "MOVE_TOKEN", [("token_id", JVal.jstr "tok"), ("x", JVal.jint 1), ("y", JVal.jint 2)]⟩

/-- Second MOVE_TOKEN on the same token "tok". -/
def cMove2 : Cmd :=
  ⟨"alice", "e8", "MOVE_TOKEN", [("token_id", JVal.jstr "tok"), ("x", JVal.jint 5), ("y", JVal.jint 7)]⟩

/-- SET_HP on a fresh target with a large negative delta. -/
def cSetHp : Cmd :=
  ⟨"alice", "e9", "SET_HP", [("target_id", JVal.jstr "bob"), ("delta", JVal.jint (-999))]⟩

/-- A command name the server does not recognize. -/
def cUnknown : Cmd := ⟨"alice", "e10", "TELEPORT", []⟩

/-- Three registered connections, the middle one failing on send. -/
def demoReg : Dict Conn := [("alice", ⟨1, true⟩), ("bob", ⟨2, false⟩), ("carol", ⟨3, true⟩)]


/-! ### Claim theorems -/

/-- C1, counterexample to the claim as stated: starting from a fresh
server, a JOIN whose name is whitespace only fails per-command validation
yet consumes a seq (the counter moves 0 → 1), so the following accepted
CHAT broadcasts seq 2 and the lifetime broadcast seq stream is `[2]`,
which is not the gapless sequence `1..N` (`[1]`). -/
theorem claim_C1_counterexample :
    broadcastSeqs (processAll [(0, cJoinBad), (0, cChat)] initCore).2 = [2] ∧
    broadcastSeqs (processAll [(0, cJoinBad), (0, cChat)] initCore).2 ≠
      List.range' 1 (broadcastSeqs (processAll [(0, cJoinBad), (0, cChat)] initCore).2).length ∧
    (handleCommand 0 cJoinBad initCore).2 =
      .errorTo "alice" "JOIN requires payload.name as non-empty string." ∧
    (handleCommand 0 cJoinBad initCore).1.seq = 1 := by
  decide

/-- C1 (amended): across the whole server lifetime the seq values carried
by broadcast events are strictly increasing in the order commands are
accepted, and every broadcast seq lies strictly between the starting
counter and the final counter; however a command that fails per-command
validation (including an unrecognized command name) still consumes a seq —
the counter is incremented before the per-command checks — while leaving
the game state and the dedup map unchanged, so gaps can appear in the
broadcast seq stream. -/
theorem claim_C1_amended :
    (∀ (steps : List (Nat × Cmd)) (s : Core),
      List.Chain' (· < ·) (broadcastSeqs (processAll steps s).2)) ∧
    (∀ (steps : List (Nat × Cmd)) (s : Core) (n : Nat),
      n ∈ broadcastSeqs (processAll steps s).2 →
      s.seq < n ∧ n ≤ (processAll steps s).1.seq) ∧
    (∀ (g : Nat) (c : Cmd) (s s' : Core) (a m : String),
      handleCommand g c s = (s', .errorTo a m) →
      s'.seq = s.seq + 1 ∧ s'.state = s.state ∧ s'.dedup = s.dedup) :=
  ⟨fun steps s => (processAll_seq_facts steps s).2.2,
   fun steps s n hn => (processAll_seq_facts steps s).2.1 n hn,
   fun g c s s' a m h => (handleCommand_error_facts g c s s' a m h).2⟩

/-- Witness for C1 (amended) at the two-command run of the
counterexample. -/
theorem claim_C1_amended_witness :
    List.Chain' (· < ·) (broadcastSeqs (processAll [(0, cJoinBad), (0, cChat)] initCore).2) ∧
    (initCore.seq < 2 ∧ 2 ≤ (processAll [(0, cJoinBad), (0, cChat)] initCore).1.seq) ∧
    ((handleCommand 0 cJoinBad initCore).1.seq = initCore.seq + 1 ∧
     (handleCommand 0 cJoinBad initCore).1.state = initCore.state ∧
     (handleCommand 0 cJoinBad initCore).1.dedup = initCore.dedup) :=
  ⟨claim_C1_amended.1 [(0, cJoinBad), (0, cChat)] initCore,
   claim_C1_amended.2.1 [(0, cJoinBad), (0, cChat)] initCore 2 (by decide),
   claim_C1_amended.2.2 0 cJoinBad initCore (handleCommand 0 cJoinBad initCore).1
     "alice" "JOIN requires payload.name as non-empty string." (by decide)⟩

/-- C2: once a `(client_id, event_id)` pair has been successfully
processed (its command broadcast an event), every later message carrying
the same pair — after any number of further commands — is a silent no-op:
the state is returned unchanged and the outcome is neither an error nor an
event, so nothing is mutated, broadcast, or charged a seq. -/
theorem claim_C2 :
    ∀ (g : Nat) (c : Cmd) (s s' : Core) (ev : Event),
      handleCommand g c s = (s', .event ev) →
      ∀ (rest : List (Nat × Cmd)) (g' : Nat) (c' : Cmd),
        c'.client_id = c.client_id → c'.event_id = c.event_id →
        handleCommand g' c' (processAll rest s').1 =
          ((processAll rest s').1, .silent) := by
  intro g c s s' ev h rest g' c' hcid heid
  have hk : dkey c' = dkey c := by rw [dkey, dkey, hcid, heid]
  obtain ⟨_, _, hd⟩ := handleCommand_event_facts g c s s' ev h
  have h1 : (dget s'.dedup (dkey c)).isSome := by
    rw [hd, dget_dinsert_self]
    rfl
  have h2 := processAll_dedup_mono rest s' (dkey c) h1
  refine handleCommand_silent g' c' _ ?_
  rw [hk]
  exact h2

/-- Witness for C2: a valid JOIN processed once, immediately retransmitted. -/
theorem claim_C2_witness :
    handleCommand 1 cJoinOk (processAll [] (handleCommand 0 cJoinOk initCore).1).1 =
      ((processAll [] (handleCommand 0 cJoinOk initCore).1).1, .silent) :=
  claim_C2 0 cJoinOk initCore (handleCommand 0 cJoinOk initCore).1
    ⟨1, "e1", "JOIN", [("client_id", .jstr "alice"), ("name", .jstr "Alice")]⟩
    (by decide) [] 1 cJoinOk rfl rfl

/-- C3: an accepted SET_HP with non-empty `target_id` and integer `delta`
creates the target with hp 20 when absent, stores
`max(0, hp + delta)` as the new hp, and reports exactly that value as
`new_hp` in the event payload; moreover after any command sequence from a
fresh server every stored player's hp is non-negative. -/
theorem claim_C3 :
    (∀ (g : Nat) (c : Cmd) (s : Core) (t : String) (d : Int),
      c.command = "SET_HP" → (dget s.dedup (dkey c)).isSome = false →
      dget c.payload "target_id" = some (.jstr t) → t ≠ "" →
      getInt c.payload "delta" = some d →
      handleCommand g c s =
        ({ seq := s.seq + 1,
           state := { s.state with players := dinsert s.state.players t { (dget s.state.players t).getD ⟨t, t, 20⟩ with hp := max 0 (((dget s.state.players t).getD ⟨t, t, 20⟩).hp + d) } },
           dedup := dinsert s.dedup (dkey c) (s.seq + 1) },
         .event ⟨s.seq + 1, c.event_id, "SET_HP",
           [("target_id", .jstr t), ("delta", .jint d),
            ("new_hp", .jint (max 0 (((dget s.state.players t).getD ⟨t, t, 20⟩).hp + d)))]⟩) ∧
      dget (handleCommand g c s).1.state.players t =
        some { (dget s.state.players t).getD ⟨t, t, 20⟩ with hp := max 0 (((dget s.state.players t).getD ⟨t, t, 20⟩).hp + d) }) ∧
    (∀ (steps : List (Nat × Cmd)) (k : String) (p : Player),
      dget (processAll steps initCore).1.state.players k = some p → 0 ≤ p.hp) := by
  constructor
  · intro g c s t d hc hmiss ht hne hd
    have he := handleCommand_setHP_eq g c s t d hc hmiss ht hne hd
    refine ⟨he, ?_⟩
    rw [he]
    exact dget_dinsert_self _ _ _
  · intro steps k p hp
    refine processAll_nonneg steps initCore ?_ k p hp
    intro k' p' h
    simp [initCore, dget] at h

/-- Witness for C3: SET_HP on the absent target "bob" with delta −999
creates it with hp 20 and clamps the result to 0. -/
theorem claim_C3_witness :
    handleCommand 0 cSetHp initCore =
      ({ seq := 1,
         state := { players := [("bob", ⟨"bob", "bob", 0⟩)], tokens := [] },
         dedup := [("alice:e9", 1)] },
       .event ⟨1, "e9", "SET_HP",
         [("target_id", .jstr "bob"), ("delta", .jint (-999)), ("new_hp", .jint 0)]⟩) ∧
    dget (handleCommand 0 cSetHp initCore).1.state.players "bob" = some ⟨"bob", "bob", 0⟩ ∧
    0 ≤ (Player.mk "bob" "bob" 0).hp := by
  obtain ⟨h1, h2⟩ := claim_C3.1 0 cSetHp initCore "bob" (-999) rfl (by decide) rfl (by decide) rfl
  exact ⟨h1.trans (by decide), h2.trans (by decide),
    claim_C3.2 [(0, cSetHp)] "bob" ⟨"bob", "bob", 0⟩ (by decide)⟩

/-- C4: whenever `handle_command` reports a per-command validation error,
the error is addressed to the originating client only (and `send_error_to`
delivers to at most that one registry entry), the game state is unchanged,
and the outcome is an error rather than a broadcast event; in particular a
JOIN whose name strips to the empty string, and any unrecognized command
name, produce exactly such a targeted error. -/
theorem claim_C4 :
    (∀ (g : Nat) (c : Cmd) (s s' : Core) (a m : String),
      handleCommand g c s = (s', .errorTo a m) →
      a = c.client_id ∧ s'.state = s.state) ∧
    (∀ (reg : Dict Conn) (a : String),
      sendErrorTo reg a = [] ∨ sendErrorTo reg a = [a]) ∧
    (∀ (g : Nat) (c : Cmd) (s : Core) (n : String),
      c.command = "JOIN" → (dget s.dedup (dkey c)).isSome = false →
      dget c.payload "name" = some (.jstr n) → pyStrip n = "" →
      handleCommand g c s = ({ s with seq := s.seq + 1 },
        .errorTo c.client_id "JOIN requires payload.name as non-empty string.")) ∧
    (∀ (g : Nat) (c : Cmd) (s : Core),
      (dget s.dedup (dkey c)).isSome = false →
      c.command ≠ "JOIN" → c.command ≠ "CHAT" → c.command ≠ "ROLL_DICE" →
      c.command ≠ "MOVE_TOKEN" → c.command ≠ "SET_HP" →
      handleCommand g c s = ({ s with seq := s.seq + 1 },
        .errorTo c.client_id ("Unknown command: " ++ c.command))) := by
  refine ⟨?_, ?_, ?_, ?_⟩
  · intro g c s s' a m h
    obtain ⟨h1, _, h3, _⟩ := handleCommand_error_facts g c s s' a m h
    exact ⟨h1, h3⟩
  · intro reg a
    rcases hv : dget reg a with _ | w
    · left
      simp [sendErrorTo, hv]
    · by_cases hw : w.sendOk
      · right
        simp [sendErrorTo, hv, hw]
      · left
        simp [sendErrorTo, hv, hw]
  · intro g c s n hc hmiss hn he
    exact handleCommand_err g c s _ hmiss (runCmd_join_err g c s.state n hc hn he)
  · intro g c s hmiss h1 h2 h3 h4 h5
    exact handleCommand_err g c s _ hmiss (runCmd_unknown g c s.state h1 h2 h3 h4 h5)

/-- Witness for C4: the whitespace-name JOIN and the unknown command
`TELEPORT`, plus `send_error_to` on a three-entry registry. -/
theorem claim_C4_witness :
    ("alice" = cJoinBad.client_id ∧ (handleCommand 0 cJoinBad initCore).1.state = initCore.state) ∧
    (sendErrorTo demoReg "alice" = [] ∨ sendErrorTo demoReg "alice" = ["alice"]) ∧
    handleCommand 0 cJoinBad initCore = ({ initCore with seq := initCore.seq + 1 },
      .errorTo cJoinBad.client_id "JOIN requires payload.name as non-empty string.") ∧
    handleCommand 0 cUnknown initCore = ({ initCore with seq := initCore.seq + 1 },
      .errorTo cUnknown.client_id ("Unknown command: " ++ cUnknown.command)) :=
  ⟨claim_C4.1 0 cJoinBad initCore (handleCommand 0 cJoinBad initCore).1 "alice"
      "JOIN requires payload.name as non-empty string." (by decide),
   claim_C4.2.1 demoReg "alice",
   claim_C4.2.2.1 0 cJoinBad initCore "  " rfl (by decide) rfl (by decide),
   claim_C4.2.2.2 0 cUnknown initCore (by decide) (by decide) (by decide) (by decide)
     (by decide) (by decide)⟩


/-- C5: a ROLL_DICE command (at a fresh dedup key) is accepted exactly
when `payload.sides` carries an integer `n` with `2 ≤ n ≤ 10000`; an
accepted roll broadcasts an event whose `result` payload entry is the
integer `1 + (g % n)`, which lies in the inclusive range `[1, n]`; an
out-of-range or missing/non-integer `sides` yields the targeted error
instead. -/
theorem claim_C5 :
    ∀ (g : Nat) (c : Cmd) (s : Core),
      c.command = "ROLL_DICE" → (dget s.dedup (dkey c)).isSome = false →
      (∀ n : Int, getInt c.payload "sides" = some n →
        (((handleCommand g c s).2.isEvent = true) ↔ (2 ≤ n ∧ n ≤ 10000)) ∧
        ((2 ≤ n ∧ n ≤ 10000) →
          handleCommand g c s =
            ({ seq := s.seq + 1, state := s.state,
               dedup := dinsert s.dedup (dkey c) (s.seq + 1) },
             .event ⟨s.seq + 1, c.event_id, "ROLL_DICE",
               [("client_id", .jstr c.client_id), ("sides", .jint n),
                ("result", .jint (1 + Int.ofNat (g % n.toNat)))]⟩) ∧
          1 ≤ 1 + Int.ofNat (g % n.toNat) ∧ 1 + Int.ofNat (g % n.toNat) ≤ n) ∧
        (¬(2 ≤ n ∧ n ≤ 10000) →
          handleCommand g c s = ({ s with seq := s.seq + 1 },
            .errorTo c.client_id "ROLL_DICE requires payload.sides as int >=2."))) ∧
      (getInt c.payload "sides" = none →
        handleCommand g c s = ({ s with seq := s.seq + 1 },
          .errorTo c.client_id "ROLL_DICE requires payload.sides as int >=2.")) := by
  intro g c s hc hmiss
  constructor
  · intro n hn
    have hacc : (2 ≤ n ∧ n ≤ 10000) →
        handleCommand g c s =
          ({ seq := s.seq + 1, state := s.state,
             dedup := dinsert s.dedup (dkey c) (s.seq + 1) },
           .event ⟨s.seq + 1, c.event_id, "ROLL_DICE",
             [("client_id", .jstr c.client_id), ("sides", .jint n),
              ("result", .jint (1 + Int.ofNat (g % n.toNat)))]⟩) := by
      intro hr
      exact handleCommand_ok g c s _ _ _ hmiss
        (runCmd_roll_ok g c s.state n hc hn hr.1 hr.2)
    have hrej : ¬(2 ≤ n ∧ n ≤ 10000) →
        handleCommand g c s = ({ s with seq := s.seq + 1 },
          .errorTo c.client_id "ROLL_DICE requires payload.sides as int >=2.") := by
      intro hr
      exact handleCommand_err g c s _ hmiss
        (runCmd_roll_err_range g c s.state n hc hn (by omega))
    refine ⟨⟨?_, ?_⟩, fun hr => ⟨hacc hr, ?_, ?_⟩, hrej⟩
    · intro hev
      by_cases hr : 2 ≤ n ∧ n ≤ 10000
      · exact hr
      · rw [hrej hr] at hev
        simp [Output.isEvent] at hev
    · intro hr
      rw [hacc hr]
      rfl
    · simp only [Int.ofNat_eq_natCast]
      omega
    · have hpos : 0 < n.toNat := by omega
      have hlt := Nat.mod_lt g hpos
      simp only [Int.ofNat_eq_natCast]
      omega
  · intro hn
    exact handleCommand_err g c s _ hmiss (runCmd_roll_err_none g c s.state hc hn)

/-- Witness for C5: sides 20 and 10000 are accepted, sides 1 and 10001
are rejected with the targeted error; the concrete roll with `g = 5` on 20
sides yields result 6, inside `[1, 20]`. -/
theorem claim_C5_witness :
    (((handleCommand 5 cRoll20 initCore).2.isEvent = true) ↔ ((2:Int) ≤ 20 ∧ (20:Int) ≤ 10000)) ∧
    handleCommand 5 cRoll20 initCore =
      ({ seq := 1, state := initCore.state, dedup := [("alice:e3", 1)] },
       .event ⟨1, "e3", "ROLL_DICE",
         [("client_id", .jstr "alice"), ("sides", .jint 20), ("result", .jint 6)]⟩) ∧
    (((handleCommand 0 cRoll10000 initCore).2.isEvent = true) ↔ ((2:Int) ≤ 10000 ∧ (10000:Int) ≤ 10000)) ∧
    handleCommand 0 cRoll1 initCore = ({ initCore with seq := 1 },
      .errorTo "alice" "ROLL_DICE requires payload.sides as int >=2.") ∧
    handleCommand 0 cRoll10001 initCore = ({ initCore with seq := 1 },
      .errorTo "alice" "ROLL_DICE requires payload.sides as int >=2.") := by
  obtain ⟨h20, _⟩ := claim_C5 5 cRoll20 initCore rfl (by decide)
  obtain ⟨hiff, hacc, _⟩ := h20 20 rfl
  obtain ⟨h10000, _⟩ := claim_C5 0 cRoll10000 initCore rfl (by decide)
  obtain ⟨h1s, _⟩ := claim_C5 0 cRoll1 initCore rfl (by decide)
  obtain ⟨h10001, _⟩ := claim_C5 0 cRoll10001 initCore rfl (by decide)
  refine ⟨hiff, ?_, (h10000 10000 rfl).1, ?_, ?_⟩
  · exact (hacc (by decide)).1.trans (by decide)
  · exact ((h1s 1 rfl).2.2 (by decide)).trans (by decide)
  · exact ((h10001 10001 rfl).2.2 (by decide)).trans (by decide)

/-- C6: an accepted MOVE_TOKEN with non-empty `token_id` and integer
coordinates stores exactly `(x, y)` for that token — a wholesale
`dinsert`, no merge — and after two accepted MOVE_TOKEN commands on the
same token the stored record is exactly the later command's pair. -/
theorem claim_C6 :
    (∀ (g : Nat) (c : Cmd) (s : Core) (t : String) (x y : Int),
      c.command = "MOVE_TOKEN" → (dget s.dedup (dkey c)).isSome = false →
      dget c.payload "token_id" = some (.jstr t) → t ≠ "" →
      getInt c.payload "x" = some x → getInt c.payload "y" = some y →
      handleCommand g c s =
        ({ seq := s.seq + 1,
           state := { s.state with tokens := dinsert s.state.tokens t (x, y) },
           dedup := dinsert s.dedup (dkey c) (s.seq + 1) },
         .event ⟨s.seq + 1, c.event_id, "MOVE_TOKEN",
           [("token_id", .jstr t), ("x", .jint x), ("y", .jint y)]⟩) ∧
      dget (handleCommand g c s).1.state.tokens t = some (x, y)) ∧
    (∀ (g₁ g₂ : Nat) (c₁ c₂ : Cmd) (s : Core) (t : String) (x₁ y₁ x₂ y₂ : Int),
      c₁.command = "MOVE_TOKEN" → c₂.command = "MOVE_TOKEN" →
      dget c₁.payload "token_id" = some (.jstr t) →
      dget c₂.payload "token_id" = some (.jstr t) → t ≠ "" →
      getInt c₁.payload "x" = some x₁ → getInt c₁.payload "y" = some y₁ →
      getInt c₂.payload "x" = some x₂ → getInt c₂.payload "y" = some y₂ →
      (dget s.dedup (dkey c₁)).isSome = false →
      (dget s.dedup (dkey c₂)).isSome = false → dkey c₂ ≠ dkey c₁ →
      dget ((handleCommand g₂ c₂ (handleCommand g₁ c₁ s).1).1).state.tokens t =
        some (x₂, y₂)) := by
  constructor
  · intro g c s t x y hc hmiss ht hne hx hy
    have he := handleCommand_move_eq g c s t x y hc hmiss ht hne hx hy
    refine ⟨he, ?_⟩
    rw [he]
    exact dget_dinsert_self _ _ _
  · intro g₁ g₂ c₁ c₂ s t x₁ y₁ x₂ y₂ hc₁ hc₂ ht₁ ht₂ hne hx₁ hy₁ hx₂ hy₂ hm₁ hm₂ hkne
    have he₁ := handleCommand_move_eq g₁ c₁ s t x₁ y₁ hc₁ hm₁ ht₁ hne hx₁ hy₁
    have hm₂' : (dget (handleCommand g₁ c₁ s).1.dedup (dkey c₂)).isSome = false := by
      rw [he₁]
      dsimp only
      rw [dget_dinsert_ne _ _ _ _ hkne]
      exact hm₂
    have he₂ := handleCommand_move_eq g₂ c₂ (handleCommand g₁ c₁ s).1 t x₂ y₂
      hc₂ hm₂' ht₂ hne hx₂ hy₂
    rw [he₂]
    exact dget_dinsert_self _ _ _

/-- Witness for C6: moving token "tok" to (1,2) and then to (5,7) leaves
exactly (5,7) stored. -/
theorem claim_C6_witness :
    handleCommand 0 cMove1 initCore =
      ({ seq := 1,
         state := { players := [], tokens := [("tok", ((1:Int), (2:Int)))] },
         dedup := [("alice:e7", 1)] },
       .event ⟨1, "e7", "MOVE_TOKEN",
         [("token_id", .jstr "tok"), ("x", .jint 1), ("y", .jint 2)]⟩) ∧
    dget ((handleCommand 0 cMove2 (handleCommand 0 cMove1 initCore).1).1).state.tokens "tok" =
      some ((5:Int), (7:Int)) := by
  obtain ⟨h1, _⟩ := claim_C6.1 0 cMove1 initCore "tok" 1 2 rfl (by decide) rfl (by decide) rfl rfl
  refine ⟨h1.trans (by decide), ?_⟩
  exact claim_C6.2 0 0 cMove1 cMove2 initCore "tok" 1 2 5 7 rfl rfl rfl rfl (by decide)
    rfl rfl rfl rfl (by decide) (by decide) (by decide)


/-! ### Broadcast fan-out lemmas -/

theorem broadcastScan_delivered (l : List (String × Conn)) :
    (broadcastScan l).1 = (l.filter (fun p => p.2.sendOk)).map Prod.fst := by
  induction l with
  | nil => rfl
  | cons hd t ih =>
    obtain ⟨cid, ws⟩ := hd
    by_cases h : ws.sendOk <;> simp [broadcastScan, h, ih]

theorem broadcastScan_dead (l : List (String × Conn)) :
    (broadcastScan l).2 = (l.filter (fun p => !p.2.sendOk)).map Prod.fst := by
  induction l with
  | nil => rfl
  | cons hd t ih =>
    obtain ⟨cid, ws⟩ := hd
    by_cases h : ws.sendOk <;> simp [broadcastScan, h, ih]

theorem dpop_eq_filter {α : Type} (d : Dict α) (k : String)
    (h : (d.map Prod.fst).Nodup) :
    dpop d k = d.filter (fun p => p.1 ≠ k) := by
  induction d with
  | nil => rfl
  | cons hd t ih =>
    obtain ⟨k', v⟩ := hd
    simp only [List.map_cons, List.nodup_cons] at h
    obtain ⟨hk, ht⟩ := h
    by_cases e : k' = k
    · subst e
      have hL : dpop ((k', v) :: t) k' = t := by
        simp [dpop]
      rw [hL, List.filter_cons]
      have hpred : (decide (¬(k', v).1 = k') : Bool) = false := by simp
      rw [hpred]
      simp only [Bool.false_eq_true, if_false]
      symm
      rw [List.filter_eq_self]
      intro p hp
      have hne : p.1 ≠ k' := fun e2 => hk (e2 ▸ List.mem_map_of_mem Prod.fst hp)
      simpa using hne
    · simp only [dpop, if_neg e, List.filter_cons]
      have hpred : (decide (¬(k', v).1 = k) : Bool) = true := by simpa using e
      rw [hpred, if_pos rfl, ih ht]

theorem nodup_dpop {α : Type} (d : Dict α) (k : String)
    (h : (d.map Prod.fst).Nodup) : ((dpop d k).map Prod.fst).Nodup := by
  rw [dpop_eq_filter d k h]
  exact h.sublist (List.Sublist.map Prod.fst (List.filter_sublist d))

theorem foldl_dpop {α : Type} (ks : List String) (d : Dict α)
    (h : (d.map Prod.fst).Nodup) :
    ks.foldl dpop d = d.filter (fun p => p.1 ∉ ks) := by
  induction ks generalizing d with
  | nil => simp
  | cons k ks ih =>
    rw [List.foldl_cons, ih (dpop d k) (nodup_dpop d k h), dpop_eq_filter d k h,
      List.filter_filter]
    apply List.filter_congr
    intro p hp
    simp only [List.mem_cons, not_or, Bool.decide_and, decide_not]
    exact Bool.and_comm _ _

/-- C7: on a registry with distinct client ids, `broadcast` attempts
delivery to every registered connection — exactly those whose send
succeeds receive the message, in registry order — and afterwards the
registry consists of exactly the connections whose send succeeded: each
failing connection, and only the failing ones, are removed. -/
theorem claim_C7 :
    ∀ (clients : Dict Conn), (clients.map Prod.fst).Nodup →
      (broadcast clients).2 = (clients.filter (fun p => p.2.sendOk)).map Prod.fst ∧
      (broadcast clients).1 = clients.filter (fun p => p.2.sendOk) := by
  intro clients h
  constructor
  · show (broadcastScan clients).1 = _
    exact broadcastScan_delivered clients
  · show ((broadcastScan clients).2).foldl dpop clients = _
    rw [broadcastScan_dead, foldl_dpop _ _ h]
    apply List.filter_congr
    intro p hp
    by_cases hok : p.2.sendOk
    · rw [hok, decide_eq_true_eq]
      intro hmem
      rw [List.mem_map] at hmem
      obtain ⟨q, hq, he⟩ := hmem
      rw [List.mem_filter] at hq
      have heq := List.inj_on_of_nodup_map h hq.1 hp he
      subst heq
      rw [hok] at hq
      simp at hq
    · rw [Bool.not_eq_true] at hok
      rw [hok, decide_eq_false_iff_not, not_not]
      refine List.mem_map_of_mem Prod.fst (List.mem_filter.mpr ⟨hp, ?_⟩)
      rw [hok]
      rfl

/-- Witness for C7: three registered connections with the middle one
failing — the other two still receive the event and only the failing one
is removed. -/
theorem claim_C7_witness :
    (broadcast demoReg).2 = ["alice", "carol"] ∧
    (broadcast demoReg).1 = [("alice", ⟨1, true⟩), ("carol", ⟨3, true⟩)] := by
  obtain ⟨h1, h2⟩ := claim_C7 demoReg (by decide)
  exact ⟨h1.trans (by decide), h2.trans (by decide)⟩

/-- C8: a closing connection is unregistered only if the registry still
maps its client id to this exact connection object (`is` comparison):
when another connection has since registered the same id the registry is
left untouched, so after two registrations of the same id the stale first
connection's close keeps the second connection registered. -/
theorem claim_C8 :
    (∀ (reg : Dict Conn) (cid : String) (ws w : Conn),
      dget reg cid = some w → w.oid ≠ ws.oid →
      unregisterIfCurrent reg cid ws = reg) ∧
    (∀ (reg : Dict Conn) (cid : String) (ws w : Conn),
      dget reg cid = some w → w.oid = ws.oid →
      unregisterIfCurrent reg cid ws = dpop reg cid) ∧
    (∀ (reg : Dict Conn) (cid : String) (ws : Conn),
      dget reg cid = none → unregisterIfCurrent reg cid ws = reg) ∧
    (∀ (reg : Dict Conn) (cid : String) (w₁ w₂ : Conn),
      w₁.oid ≠ w₂.oid →
      dget (register (register reg cid w₁) cid w₂) cid = some w₂ ∧
      unregisterIfCurrent (register (register reg cid w₁) cid w₂) cid w₁ =
        register (register reg cid w₁) cid w₂) := by
  refine ⟨?_, ?_, ?_, ?_⟩
  · intro reg cid ws w h hne
    simp [unregisterIfCurrent, h, hne]
  · intro reg cid ws w h he
    simp [unregisterIfCurrent, h, he]
  · intro reg cid ws h
    simp [unregisterIfCurrent, h]
  · intro reg cid w₁ w₂ hne
    have hg : dget (register (register reg cid w₁) cid w₂) cid = some w₂ :=
      dget_dinsert_self _ _ _
    have hne₂ : ¬w₂.oid = w₁.oid := fun e => hne e.symm
    exact ⟨hg, by simp [unregisterIfCurrent, hg, hne₂]⟩

/-- Witness for C8: connections 1 and 2 register the same id; closing the
stale connection 1 leaves connection 2 registered, while closing the
current one removes it. -/
theorem claim_C8_witness :
    unregisterIfCurrent [("alice", ⟨2, true⟩)] "alice" ⟨1, true⟩ = [("alice", ⟨2, true⟩)] ∧
    unregisterIfCurrent [("alice", ⟨2, true⟩)] "alice" ⟨2, true⟩ = dpop [("alice", ⟨2, true⟩)] "alice" ∧
    unregisterIfCurrent ([] : Dict Conn) "alice" ⟨1, true⟩ = [] ∧
    (dget (register (register [] "alice" ⟨1, true⟩) "alice" ⟨2, true⟩) "alice" = some ⟨2, true⟩ ∧
     unregisterIfCurrent (register (register [] "alice" ⟨1, true⟩) "alice" ⟨2, true⟩) "alice" ⟨1, true⟩ =
       register (register [] "alice" ⟨1, true⟩) "alice" ⟨2, true⟩) :=
  ⟨claim_C8.1 [("alice", ⟨2, true⟩)] "alice" ⟨1, true⟩ ⟨2, true⟩ (by decide) (by decide),
   claim_C8.2.1 [("alice", ⟨2, true⟩)] "alice" ⟨2, true⟩ ⟨2, true⟩ (by decide) rfl,
   claim_C8.2.2.1 [] "alice" ⟨1, true⟩ rfl,
   claim_C8.2.2.2 [] "alice" ⟨1, true⟩ ⟨2, true⟩ (by decide)⟩

/-- C9: a command that fails per-command validation leaves the dedup map
unchanged; hence a later message with the same `(client_id, event_id)` is
processed again in full (its outcome is not the silent dedup no-op), and
if it then passes validation — e.g. as a valid JOIN — it broadcasts an
event. -/
theorem claim_C9 :
    (∀ (g : Nat) (c : Cmd) (s s' : Core) (a m : String),
      handleCommand g c s = (s', .errorTo a m) → s'.dedup = s.dedup) ∧
    (∀ (g g' : Nat) (c c' : Cmd) (s s' : Core) (a m : String),
      handleCommand g c s = (s', .errorTo a m) →
      c'.client_id = c.client_id → c'.event_id = c.event_id →
      (dget s.dedup (dkey c)).isSome = false →
      (handleCommand g' c' s').2 ≠ .silent) ∧
    (∀ (g g' : Nat) (c c' : Cmd) (s s' : Core) (a m n : String),
      handleCommand g c s = (s', .errorTo a m) →
      c'.client_id = c.client_id → c'.event_id = c.event_id →
      (dget s.dedup (dkey c)).isSome = false →
      c'.command = "JOIN" → dget c'.payload "name" = some (.jstr n) → pyStrip n ≠ "" →
      (handleCommand g' c' s').2.isEvent = true) := by
  refine ⟨?_, ?_, ?_⟩
  · intro g c s s' a m h
    exact (handleCommand_error_facts g c s s' a m h).2.2.2
  · intro g g' c c' s s' a m h hcid heid hmiss
    have hk : dkey c' = dkey c := by rw [dkey, dkey, hcid, heid]
    have hd := (handleCommand_error_facts g c s s' a m h).2.2.2
    have hmiss' : (dget s'.dedup (dkey c')).isSome = false := by
      rw [hk, hd]
      exact hmiss
    exact handleCommand_not_silent g' c' s' hmiss'
  · intro g g' c c' s s' a m n h hcid heid hmiss hc' hn hne
    have hk : dkey c' = dkey c := by rw [dkey, dkey, hcid, heid]
    have hd := (handleCommand_error_facts g c s s' a m h).2.2.2
    have hmiss' : (dget s'.dedup (dkey c')).isSome = false := by
      rw [hk, hd]
      exact hmiss
    rw [handleCommand_join_eq g' c' s' n hc' hmiss' hn hne]
    rfl

/-- Witness for C9: the whitespace-name JOIN fails; retransmitting the
same `(client_id, event_id)` as a valid JOIN is processed in full and
broadcasts. -/
theorem claim_C9_witness :
    (handleCommand 0 cJoinBad initCore).1.dedup = initCore.dedup ∧
    (handleCommand 1 cJoinOk (handleCommand 0 cJoinBad initCore).1).2 ≠ .silent ∧
    (handleCommand 1 cJoinOk (handleCommand 0 cJoinBad initCore).1).2.isEvent = true :=
  ⟨claim_C9.1 0 cJoinBad initCore (handleCommand 0 cJoinBad initCore).1 "alice"
      "JOIN requires payload.name as non-empty string." (by decide),
   claim_C9.2.1 0 1 cJoinBad cJoinOk initCore (handleCommand 0 cJoinBad initCore).1 "alice"
      "JOIN requires payload.name as non-empty string." (by decide) rfl rfl (by decide),
   claim_C9.2.2 0 1 cJoinBad cJoinOk initCore (handleCommand 0 cJoinBad initCore).1 "alice"
      "JOIN requires payload.name as non-empty string." " Alice " (by decide) rfl rfl
      (by decide) rfl rfl (by decide)⟩

/-- C10: an accepted JOIN stores the whitespace-trimmed name
(`name.strip()`) in the Player record — both when creating the player and
when renaming an existing one — and echoes exactly that trimmed name in
the broadcast event payload. -/
theorem claim_C10 :
    ∀ (g : Nat) (c : Cmd) (s : Core) (n : String),
      c.command = "JOIN" → (dget s.dedup (dkey c)).isSome = false →
      dget c.payload "name" = some (.jstr n) → pyStrip n ≠ "" →
      handleCommand g c s =
        ({ seq := s.seq + 1,
           state := { s.state with players := dinsert s.state.players c.client_id { (dget s.state.players c.client_id).getD ⟨c.client_id, pyStrip n, 20⟩ with name := pyStrip n } },
           dedup := dinsert s.dedup (dkey c) (s.seq + 1) },
         .event ⟨s.seq + 1, c.event_id, "JOIN",
           [("client_id", .jstr c.client_id), ("name", .jstr (pyStrip n))]⟩) ∧
      dget (handleCommand g c s).1.state.players c.client_id =
        some { (dget s.state.players c.client_id).getD ⟨c.client_id, pyStrip n, 20⟩ with name := pyStrip n } := by
  intro g c s n hc hmiss hn hne
  have he := handleCommand_join_eq g c s n hc hmiss hn hne
  refine ⟨he, ?_⟩
  rw [he]
  exact dget_dinsert_self _ _ _

/-- Witness for C10: JOIN with name " Alice " creates the player with the
trimmed name "Alice", and a second JOIN with name " Al " renames the
existing player to "Al"; the event payloads echo the trimmed names. -/
theorem claim_C10_witness :
    handleCommand 0 cJoinOk initCore =
      ({ seq := 1,
         state := { players := [("alice", ⟨"alice", "Alice", 20⟩)], tokens := [] },
         dedup := [("alice:e1", 1)] },
       .event ⟨1, "e1", "JOIN",
         [("client_id", .jstr "alice"), ("name", .jstr "Alice")]⟩) ∧
    handleCommand 0 ⟨"alice", "e2", "JOIN", [("name", JVal.jstr " Al ")]⟩
        ⟨3, ⟨[("alice", ⟨"alice", "Alice", 7⟩)], []⟩, []⟩ =
      ({ seq := 4,
         state := { players := [("alice", ⟨"alice", "Al", 7⟩)], tokens := [] },
         dedup := [("alice:e2", 4)] },
       .event ⟨4, "e2", "JOIN",
         [("client_id", .jstr "alice"), ("name", .jstr "Al")]⟩) := by
  obtain ⟨h1, _⟩ := claim_C10 0 cJoinOk initCore " Alice " rfl (by decide) rfl (by decide)
  obtain ⟨h2, _⟩ := claim_C10 0 ⟨"alice", "e2", "JOIN", [("name", JVal.jstr " Al ")]⟩
    ⟨3, ⟨[("alice", ⟨"alice", "Alice", 7⟩)], []⟩, []⟩ " Al " rfl (by decide) rfl (by decide)
  exact ⟨h1.trans (by decide), h2.trans (by decide)⟩

end Tabletop
